import Mathlib

/-!
Verification of the streaming-playground core (`src/main.py`):
token estimation with a lazy tokenizer fallback chain, the streaming
chunk-consumption loop with TTFT/TPS metrics, and the conversation
store mutations performed by the prompt handler.

Python strings are modelled as Lean `String`, timestamps from
`time.perf_counter()` as `ℚ` (an exact model of a monotone clock),
and the external tokenizer / API client as explicit parameters.
-/

namespace Playground

/-- Python `str.isspace` characters relevant to `strip`/`split`:
space, tab, newline, carriage return, vertical tab, form feed. -/
def isPySpace (c : Char) : Bool :=
  c = ' ' || c = '\t' || c = '\n' || c = '\x0d' || c = '\x0b' || c = '\x0c'

/-- Python `text.strip()` on the character list: drop whitespace from
both ends. -/
def pyStripList (s : List Char) : List Char :=
  ((s.dropWhile isPySpace).reverse.dropWhile isPySpace).reverse

/-- Python `text.strip()`. -/
def pyStrip (s : String) : String :=
  ⟨pyStripList s.toList⟩

/-- Helper for `str.split()`: accumulate the current word (reversed) and
emit words at whitespace boundaries. -/
def pySplitAux : List Char → List Char → List (List Char)
  | [], [] => []
  | [], acc => [acc.reverse]
  | c :: cs, acc =>
    if isPySpace c then
      match acc with
      | [] => pySplitAux cs []
      | _ => acc.reverse :: pySplitAux cs []
    else pySplitAux cs (c :: acc)

/-- Python `text.split()` (no separator): whitespace-delimited words,
with no empty words produced. -/
def pySplit (s : String) : List String :=
  (pySplitAux s.toList []).map (fun w => ⟨w⟩)

/-- An external tokenizer handle (`tiktoken` encoding object): encoding a
text either yields a token list or fails at call time (`encode` raising). -/
def Encoder : Type := String → Option (List Nat)

/-- The process-wide `_tokenizer` global: `None` (uninitialized), the
`False` sentinel recorded after a failed initialization, or a ready
encoding object. -/
inductive TokSlot
  | uninit
  | sentinel
  | ready (e : Encoder)

/-- The environment's answer to `import tiktoken; get_encoding("cl100k_base")`:
`some e` when initialization succeeds with encoder `e`, `none` when it
raises (library unavailable / encoding unsupported). Fixed per process. -/
def InitOutcome : Type := Option Encoder

/-- The whitespace/character fallback heuristic at the end of
`estimate_tokens`: word count when the stripped text splits into words,
otherwise `max 1 (len(text) // 4)` on the original text. -/
def fallbackEstimate (text : String) : Nat :=
  let words := pySplit (pyStrip text)
  if words ≠ [] then words.length else max 1 (text.length / 4)

/-- The function `estimate_tokens(text)` from `src/main.py`, with the global
`_tokenizer` threaded explicitly: returns the estimate and the new slot
value. `text = none` models passing `None` (falsy, like `""`). -/
def estimate_tokens (init : InitOutcome) (slot : TokSlot) (text : Option String) :
    Nat × TokSlot :=
  match text with
  | none => (0, slot)
  | some t =>
    if t = "" then (0, slot)
    else
      let slot1 := match slot with
        | .uninit =>
          match init with
          | some e => TokSlot.ready e
          | none => TokSlot.sentinel
        | s => s
      match slot1 with
      | .ready e =>
        match e t with
        | some toks => (toks.length, slot1)
        | none => (fallbackEstimate t, slot1)
      | s => (fallbackEstimate t, s)

/-- Message roles used by the chat transcript. -/
inductive Role
  | system
  | user
  | assistant
deriving DecidableEq, Repr

/-- A transcript message: `{"role": ..., "content": ...}`. -/
structure Message where
  role : Role
  content : String
deriving DecidableEq, Repr

/-- One streamed chunk: the optional content delta
(`chunk.choices[0].delta.content`, `none` models Python `None`) and the
`time.perf_counter()` value at the moment the chunk is processed. -/
structure Chunk where
  delta : Option String
  time : ℚ
deriving DecidableEq

/-- The loop-local state of the streaming `for chunk in stream` loop,
together with the global tokenizer slot it mutates through
`estimate_tokens`. -/
structure LoopState where
  slot : TokSlot
  full_response : String
  tokens_so_far : Nat
  first_token_time : Option ℚ

/-- The epsilon floor `1e-6` used on elapsed generation time. -/
def epsFloor : ℚ := 1 / 1000000

/-- The elapsed time `gen_elapsed = max(1e-6, now - first_token_time)`. -/
def genElapsed (first_token_time now : ℚ) : ℚ :=
  max epsFloor (now - first_token_time)

/-- The throughput `avg_tps = tokens_so_far / gen_elapsed`. -/
def avgTps (tokens_so_far : Nat) (first_token_time now : ℚ) : ℚ :=
  (tokens_so_far : ℚ) / genElapsed first_token_time now

/-- The body of the streaming loop for one chunk: skip chunks whose delta
`is None`; otherwise record `first_token_time` if still unset, append the
piece, and add its token estimate. -/
def processChunk (init : InitOutcome) (s : LoopState) (ch : Chunk) : LoopState :=
  match ch.delta with
  | none => s
  | some piece =>
    let ftt := match s.first_token_time with
      | none => some ch.time
      | some t => some t
    let est := estimate_tokens init s.slot (some piece)
    { slot := est.2
      full_response := s.full_response ++ piece
      tokens_so_far := s.tokens_so_far + est.1
      first_token_time := ftt }

/-- The loop state on entering the stream:
`full_response = ""`, `tokens_so_far = 0`, `first_token_time = None`. -/
def initLoopState (slot : TokSlot) : LoopState :=
  { slot := slot, full_response := "", tokens_so_far := 0, first_token_time := none }

/-- Running the whole streaming loop over a chunk sequence. -/
def runStream (init : InitOutcome) (slot : TokSlot) (chunks : List Chunk) : LoopState :=
  chunks.foldl (processChunk init) (initLoopState slot)

/-- The process-wide last-response metrics slot
(`last_ttft_s`, `last_tokens`, `last_tps`, `last_gen_seconds`). -/
structure SessionMetrics where
  last_ttft_s : Option ℚ
  last_tokens : Nat
  last_tps : ℚ
  last_gen_seconds : ℚ
deriving DecidableEq, Repr

/-- The absent/zero metrics record written when no content was received. -/
def absentZeroMetrics : SessionMetrics :=
  { last_ttft_s := none, last_tokens := 0, last_tps := 0, last_gen_seconds := 0 }

/-- The final-metrics block after the loop: if `first_token_time` was set,
compute and save ttft/tokens/tps/gen-seconds; otherwise save the
absent/zero record. -/
def finalMetrics (request_start end_time : ℚ) (s : LoopState) : SessionMetrics :=
  match s.first_token_time with
  | some ftt =>
    { last_ttft_s := some (ftt - request_start)
      last_tokens := s.tokens_so_far
      last_tps := avgTps s.tokens_so_far ftt end_time
      last_gen_seconds := genElapsed ftt end_time }
  | none => absentZeroMetrics

/-- Session state touched by the prompt handler: the message list and the
last-response metrics keys (`none` = keys never set this session). -/
structure Session where
  messages : List Message
  metrics : Option SessionMetrics
deriving DecidableEq

/-- How the external API client behaves for this request: either the
stream yields `chunks` and is exhausted at `end_time`, or one of the
classified errors (`APIError`, `APIConnectionError`, `AuthenticationError`,
`RateLimitError`, `ValueError`) is raised — at establishment when
`before = []`, or mid-iteration after the chunks in `before`. `desc` is
`str(e)`. -/
inductive StreamOutcome
  | ok (chunks : List Chunk) (end_time : ℚ)
  | apiError (before : List Chunk) (desc : String)

/-- Result of one prompt-handler run: the new session state, the new
tokenizer slot, and the message payload handed to the API client
(`none` when the run stopped before contacting the client). -/
structure RunOutput where
  sess : Session
  slot : TokSlot
  payload : Option (List Message)

/-- The `api_messages` construction: a system message (iff the system
prompt is non-empty after trimming) followed by the stored messages. -/
def apiMessages (system_message : String) (msgs : List Message) : List Message :=
  (if pyStrip system_message ≠ "" then [⟨Role.system, system_message⟩] else []) ++ msgs

/-- The chat-input handler (`if prompt := st.chat_input(...)`) for one
submitted prompt: append the user message, build `api_messages`, stop if
the model name is blank, otherwise stream (or fail) and append the
finalized assistant message. On a classified error the finalized text is
the `"❌ Error: "`-marked description and the metrics keys are not
assigned. -/
def handlePrompt (init : InitOutcome) (model system_message prompt : String)
    (sess : Session) (slot : TokSlot) (request_start : ℚ)
    (outcome : StreamOutcome) : RunOutput :=
  let msgs1 := sess.messages ++ [⟨Role.user, prompt⟩]
  let api_messages := apiMessages system_message msgs1
  if pyStrip model = "" then
    { sess := { messages := msgs1, metrics := sess.metrics }
      slot := slot
      payload := none }
  else
    match outcome with
    | .ok chunks end_time =>
      let ls := runStream init slot chunks
      { sess := { messages := msgs1 ++ [⟨Role.assistant, ls.full_response⟩]
                  metrics := some (finalMetrics request_start end_time ls) }
        slot := ls.slot
        payload := some api_messages }
    | .apiError before desc =>
      let ls := runStream init slot before
      let error_msg := "❌ Error: " ++ desc
      { sess := { messages := msgs1 ++ [⟨Role.assistant, error_msg⟩]
                  metrics := sess.metrics }
        slot := ls.slot
        payload := some api_messages }

/-- The per-message delete button handler, `st.session_state.messages.pop(i)`:
Python `list.pop(i)` removes the element at `i` when `i` is in bounds and
raises `IndexError` otherwise (modelled as `none`). -/
def deleteMessage (msgs : List Message) (i : Nat) : Option (List Message) :=
  if i < msgs.length then some (msgs.take i ++ msgs.drop (i + 1)) else none

lemma processChunk_delta_none (init : InitOutcome) (s : LoopState) (c : Chunk)
    (h : c.delta = none) : processChunk init s c = s := by
  simp [processChunk, h]

lemma foldl_first_token_time_some (init : InitOutcome) (chunks : List Chunk)
    (s : LoopState) (t : ℚ) (h : s.first_token_time = some t) :
    (List.foldl (processChunk init) s chunks).first_token_time = some t := by
  induction chunks generalizing s with
  | nil => exact h
  | cons c cs ih =>
    simp only [List.foldl_cons]
    apply ih
    cases hd : c.delta with
    | none => rw [processChunk_delta_none init s c hd]; exact h
    | some p => simp [processChunk, hd, h]

lemma foldl_first_token_time_none (init : InitOutcome) (chunks : List Chunk)
    (s : LoopState) (h : s.first_token_time = none) :
    (List.foldl (processChunk init) s chunks).first_token_time =
      (chunks.find? (fun c => c.delta.isSome)).map Chunk.time := by
  induction chunks generalizing s with
  | nil => simpa using h
  | cons c cs ih =>
    simp only [List.foldl_cons]
    cases hd : c.delta with
    | none =>
      rw [processChunk_delta_none init s c hd, ih s h, List.find?_cons]
      simp [hd]
    | some p =>
      have hstep : (processChunk init s c).first_token_time = some c.time := by
        simp [processChunk, hd, h]
      rw [foldl_first_token_time_some init cs _ c.time hstep, List.find?_cons]
      simp [hd]

lemma foldl_tokens_mono (init : InitOutcome) (chunks : List Chunk) (s : LoopState) :
    s.tokens_so_far ≤ (List.foldl (processChunk init) s chunks).tokens_so_far := by
  induction chunks generalizing s with
  | nil => exact le_refl _
  | cons c cs ih =>
    simp only [List.foldl_cons]
    refine le_trans ?_ (ih (processChunk init s c))
    cases hd : c.delta with
    | none => rw [processChunk_delta_none init s c hd]
    | some p => simp [processChunk, hd]

lemma foldl_all_delta_none (init : InitOutcome) (chunks : List Chunk) (s : LoopState)
    (h : ∀ c ∈ chunks, c.delta = none) :
    List.foldl (processChunk init) s chunks = s := by
  induction chunks generalizing s with
  | nil => rfl
  | cons c cs ih =>
    simp only [List.foldl_cons]
    rw [processChunk_delta_none init s c (h c (by simp))]
    exact ih s fun c hc => h c (by simp [hc])

/-- Encoders with the property tiktoken's `cl100k_base` has: a non-empty
text never encodes to an empty token list. -/
def GoodEncoder (e : Encoder) : Prop :=
  ∀ t l, t ≠ "" → e t = some l → l ≠ []

lemma fallbackEstimate_pos (t : String) : 1 ≤ fallbackEstimate t := by
  unfold fallbackEstimate
  by_cases h : pySplit (pyStrip t) = []
  · simp [h]
  · simp only [h, ne_eq, not_false_eq_true, if_true]
    exact List.length_pos.mpr h

end Playground

open Playground

/-- C5: `estimate_tokens` returns 0 on absent or empty text; on non-empty
text it returns at least 1 (given that every encoder in play never encodes
a non-empty text to an empty token list); and in the permanent-fallback
state it returns the word count of the stripped text when that splits into
one or more words, else `max 1 (len / 4)`. -/
theorem estimate_tokens_contract (init : InitOutcome) (slot : TokSlot) (t : String)
    (hinit : ∀ e, init = some e → GoodEncoder e)
    (hslot : ∀ e, slot = TokSlot.ready e → GoodEncoder e) :
    (estimate_tokens init slot none).1 = 0 ∧
    (estimate_tokens init slot (some "")).1 = 0 ∧
    (t ≠ "" → 1 ≤ (estimate_tokens init slot (some t)).1) ∧
    (slot = TokSlot.sentinel → t ≠ "" →
      (estimate_tokens init slot (some t)).1 =
        if pySplit (pyStrip t) ≠ [] then (pySplit (pyStrip t)).length
        else max 1 (t.length / 4)) := by
  refine ⟨rfl, by simp [estimate_tokens], ?_, ?_⟩
  · intro ht
    simp only [estimate_tokens, ht, if_neg ht]
    cases slot with
    | uninit =>
      cases hi : init with
      | none => simpa using fallbackEstimate_pos t
      | some e =>
        simp only
        cases he : e t with
        | none => simpa using fallbackEstimate_pos t
        | some l =>
          simp only
          have hl : l ≠ [] := hinit e hi t l ht he
          exact List.length_pos.mpr hl
    | sentinel => simpa using fallbackEstimate_pos t
    | ready e =>
      simp only
      cases he : e t with
      | none => simpa using fallbackEstimate_pos t
      | some l =>
        simp only
        have hl : l ≠ [] := hslot e rfl t l ht he
        exact List.length_pos.mpr hl
  · intro hs ht
    subst hs
    simp [estimate_tokens, ht, fallbackEstimate]

/-- Witness for C5 at a concrete input: fallback state, text `"hi there"`
(two whitespace-delimited words). -/
theorem estimate_tokens_contract_witness :
    ((∀ e, (none : InitOutcome) = some e → GoodEncoder e) ∧
     (∀ e, TokSlot.sentinel = TokSlot.ready e → GoodEncoder e)) ∧
    ((estimate_tokens none TokSlot.sentinel none).1 = 0 ∧
     (estimate_tokens none TokSlot.sentinel (some "")).1 = 0 ∧
     ("hi there" ≠ "" → 1 ≤ (estimate_tokens none TokSlot.sentinel (some "hi there")).1) ∧
     (TokSlot.sentinel = TokSlot.sentinel → "hi there" ≠ "" →
       (estimate_tokens none TokSlot.sentinel (some "hi there")).1 =
         if pySplit (pyStrip "hi there") ≠ [] then (pySplit (pyStrip "hi there")).length
         else max 1 ("hi there".length / 4))) :=
  ⟨⟨fun e h => Option.noConfusion h, fun e h => TokSlot.noConfusion h⟩,
   estimate_tokens_contract none TokSlot.sentinel "hi there"
     (fun e h => Option.noConfusion h) (fun e h => TokSlot.noConfusion h)⟩

/-- C6: the tokenizer is initialized lazily (never on absent/empty text,
exactly on the first non-empty call); a failed initialization records the
permanent `False` sentinel; in the sentinel state the call neither
consults the initializer again (its result is independent of `init`) nor
leaves the sentinel state; and an encode failure on a ready tokenizer
falls back for that call only, leaving the slot ready, not sentinel. -/
theorem estimate_tokens_lazy_init (init : InitOutcome) (e : Encoder) (t : String)
    (ht : t ≠ "") :
    (estimate_tokens init TokSlot.uninit none).2 = TokSlot.uninit ∧
    (estimate_tokens init TokSlot.uninit (some "")).2 = TokSlot.uninit ∧
    (init = none →
      (estimate_tokens init TokSlot.uninit (some t)).2 = TokSlot.sentinel) ∧
    (∀ e0, init = some e0 →
      (estimate_tokens init TokSlot.uninit (some t)).2 = TokSlot.ready e0) ∧
    (∀ init2, estimate_tokens init TokSlot.sentinel (some t) =
      estimate_tokens init2 TokSlot.sentinel (some t)) ∧
    (estimate_tokens init TokSlot.sentinel (some t)).2 = TokSlot.sentinel ∧
    (e t = none →
      estimate_tokens init (TokSlot.ready e) (some t) =
        (fallbackEstimate t, TokSlot.ready e)) := by
  refine ⟨rfl, by simp [estimate_tokens], ?_, ?_, ?_, ?_, ?_⟩
  · intro hi
    subst hi
    simp [estimate_tokens, ht]
  · intro e0 hi
    subst hi
    simp only [estimate_tokens, if_neg ht]
    cases e0 t <;> simp
  · intro init2
    simp [estimate_tokens, ht]
  · simp [estimate_tokens, ht]
  · intro he
    simp [estimate_tokens, ht, he]

/-- C2, counterexample: the loop guards on `delta.content is not None`,
so a chunk carrying the *empty-string* delta (non-`None` but with no
content) sets `first_token_time`. On the sequence
`[(delta "", t=1), (delta "x", t=2)]` the first non-empty delta arrives
at time 2, yet `first_token_time` is set to 1. -/
theorem first_token_time_claim_counterexample :
    (runStream none TokSlot.uninit
        [⟨some "", 1⟩, ⟨some "x", 2⟩]).first_token_time = some 1 ∧
    ((([⟨some "", 1⟩, ⟨some "x", 2⟩] : List Chunk).find?
        (fun c => c.delta.elim false (fun s => s ≠ ""))).map Chunk.time = some 2) ∧
    some (1 : ℚ) ≠ some 2 := by
  refine ⟨rfl, rfl, by norm_num⟩

/-- C2, amended: `first_token_time` is set exactly once, at the arrival of
the first chunk whose delta is *present* (non-`None`; an empty-string
delta counts); chunks whose delta is absent are complete no-ops for
accumulation and do not abort the stream; once set, `first_token_time`
never changes; and the resulting ttft is non-negative under a monotone
clock. -/
theorem first_token_time_amended (init : InitOutcome) (slot : TokSlot)
    (chunks : List Chunk) (request_start : ℚ)
    (hmono : ∀ c ∈ chunks, request_start ≤ c.time) :
    (runStream init slot chunks).first_token_time =
      (chunks.find? (fun c => c.delta.isSome)).map Chunk.time ∧
    (∀ c, c.delta = none → ∀ s, processChunk init s c = s) ∧
    (∀ s t, s.first_token_time = some t →
      (List.foldl (processChunk init) s chunks).first_token_time = some t) ∧
    (∀ t, (runStream init slot chunks).first_token_time = some t →
      0 ≤ t - request_start) := by
  have hftt := foldl_first_token_time_none init chunks (initLoopState slot) rfl
  refine ⟨hftt, fun c hc s => processChunk_delta_none init s c hc,
    fun s t h => foldl_first_token_time_some init chunks s t h, ?_⟩
  intro t h
  rw [runStream] at h
  rw [hftt] at h
  obtain ⟨c, hfind, htime⟩ := Option.map_eq_some'.mp h
  have hmem : c ∈ chunks := List.mem_of_find?_eq_some hfind
  have := hmono c hmem
  rw [htime] at this
  linarith

/-- Witness for the amended C2 at a concrete input: an absent-delta chunk
followed by a content chunk, with a clock that starts at the request. -/
theorem first_token_time_amended_witness :
    (∀ c ∈ ([⟨none, 1⟩, ⟨some "hi", 2⟩] : List Chunk), (0 : ℚ) ≤ c.time) ∧
    ((runStream none TokSlot.uninit [⟨none, 1⟩, ⟨some "hi", 2⟩]).first_token_time =
      (([⟨none, 1⟩, ⟨some "hi", 2⟩] : List Chunk).find?
        (fun c => c.delta.isSome)).map Chunk.time ∧
     (∀ c, c.delta = none → ∀ s, processChunk none s c = s) ∧
     (∀ s t, s.first_token_time = some t →
       (List.foldl (processChunk none) s [⟨none, 1⟩, ⟨some "hi", 2⟩]).first_token_time
         = some t) ∧
     (∀ t, (runStream none TokSlot.uninit
         [⟨none, 1⟩, ⟨some "hi", 2⟩]).first_token_time = some t →
       0 ≤ t - (0 : ℚ))) :=
  have hmono : ∀ c ∈ ([⟨none, 1⟩, ⟨some "hi", 2⟩] : List Chunk), (0 : ℚ) ≤ c.time := by
    intro c hc
    rcases List.mem_cons.mp hc with h | h
    · rw [h]; norm_num
    · rcases List.mem_cons.mp h with h2 | h2
      · rw [h2]; norm_num
      · exact absurd h2 (List.not_mem_nil c)
  ⟨hmono, first_token_time_amended none TokSlot.uninit
    [⟨none, 1⟩, ⟨some "hi", 2⟩] 0 hmono⟩

/-- C4: the elapsed generation time used as the TPS denominator (live and
final alike) is floored at the positive epsilon `1e-6`, so it is never
zero; `avg_tps` and the recorded final tps are non-negative; and
`tokens_so_far` is non-decreasing as further chunks arrive. -/
theorem tps_denominator_guarded (init : InitOutcome) (slot : TokSlot)
    (l1 l2 : List Chunk) :
    (0 < epsFloor) ∧
    (∀ ftt now : ℚ, epsFloor ≤ genElapsed ftt now) ∧
    (∀ (toks : Nat) (ftt now : ℚ), 0 ≤ avgTps toks ftt now) ∧
    (∀ (request_start end_time : ℚ) (s : LoopState),
      0 ≤ (finalMetrics request_start end_time s).last_tps) ∧
    (runStream init slot l1).tokens_so_far ≤
      (runStream init slot (l1 ++ l2)).tokens_so_far := by
  have heps : (0 : ℚ) < epsFloor := by norm_num [epsFloor]
  have hge : ∀ ftt now : ℚ, epsFloor ≤ genElapsed ftt now := fun _ _ => le_max_left _ _
  have htps : ∀ (toks : Nat) (ftt now : ℚ), 0 ≤ avgTps toks ftt now := by
    intro toks ftt now
    apply div_nonneg (by positivity)
    exact le_of_lt (lt_of_lt_of_le heps (hge ftt now))
  refine ⟨heps, hge, htps, ?_, ?_⟩
  · intro rs et s
    cases h : s.first_token_time with
    | none => simp [finalMetrics, h, absentZeroMetrics]
    | some ftt => simpa [finalMetrics, h] using htps s.tokens_so_far ftt et
  · rw [runStream, runStream, List.foldl_append]
    exact foldl_tokens_mono init l2 _

/-- C3, counterexample: the delete handler is a bare
`st.session_state.messages.pop(i)`; on a 2-message store, `pop(5)`
raises `IndexError` (modelled as `none`) rather than leaving the store
unchanged as a silent no-op. -/
theorem deleteMessage_claim_counterexample :
    deleteMessage [⟨Role.user, "a"⟩, ⟨Role.assistant, "b"⟩] 5 = none ∧
    deleteMessage [⟨Role.user, "a"⟩, ⟨Role.assistant, "b"⟩] 5 ≠
      some [⟨Role.user, "a"⟩, ⟨Role.assistant, "b"⟩] := by
  refine ⟨rfl, by decide⟩

/-- C3, amended: for an in-bounds index, `messages.pop(i)` removes exactly
the message at that index and shifts the subsequent ones down by one; an
out-of-bounds index raises `IndexError` (modelled as `none`) — it is not
a silent no-op, though the UI only ever invokes the handler with indices
that are in bounds at render time. -/
theorem deleteMessage_amended (msgs : List Message) (i : Nat) :
    (i < msgs.length →
      ∃ l, deleteMessage msgs i = some l ∧
        l.length = msgs.length - 1 ∧
        (∀ j, j < i → l[j]? = msgs[j]?) ∧
        (∀ j, i ≤ j → l[j]? = msgs[j + 1]?)) ∧
    (msgs.length ≤ i → deleteMessage msgs i = none) := by
  constructor
  · intro hi
    refine ⟨msgs.take i ++ msgs.drop (i + 1), by simp [deleteMessage, hi], ?_, ?_, ?_⟩
    · simp only [List.length_append, List.length_take, List.length_drop]
      omega
    · intro j hj
      rw [List.getElem?_append, if_pos (by simp only [List.length_take]; omega),
        List.getElem?_take, if_pos hj]
    · intro j hj
      rw [List.getElem?_append, if_neg (by simp only [List.length_take]; omega),
        List.getElem?_drop]
      congr 1
      simp only [List.length_take]
      omega
  · intro hi
    simp [deleteMessage]
    omega

/-- Witness for the amended C3 at a concrete input: a 2-message store with
index 0 (in bounds) and, via the same theorem, length ≤ 5 out of bounds. -/
theorem deleteMessage_amended_witness :
    ((0 : Nat) < ([⟨Role.user, "a"⟩, ⟨Role.assistant, "b"⟩] : List Message).length) ∧
    ((0 < ([⟨Role.user, "a"⟩, ⟨Role.assistant, "b"⟩] : List Message).length →
      ∃ l, deleteMessage [⟨Role.user, "a"⟩, ⟨Role.assistant, "b"⟩] 0 = some l ∧
        l.length = ([⟨Role.user, "a"⟩, ⟨Role.assistant, "b"⟩] : List Message).length - 1 ∧
        (∀ j, j < 0 → l[j]? = ([⟨Role.user, "a"⟩, ⟨Role.assistant, "b"⟩] : List Message)[j]?) ∧
        (∀ j, 0 ≤ j → l[j]? = ([⟨Role.user, "a"⟩, ⟨Role.assistant, "b"⟩] : List Message)[j + 1]?)) ∧
     (([⟨Role.user, "a"⟩, ⟨Role.assistant, "b"⟩] : List Message).length ≤ 0 →
      deleteMessage [⟨Role.user, "a"⟩, ⟨Role.assistant, "b"⟩] 0 = none)) :=
  ⟨by decide, deleteMessage_amended [⟨Role.user, "a"⟩, ⟨Role.assistant, "b"⟩] 0⟩

/-- C1, counterexample: the `except` branch never assigns the
`last_*` session keys — they are written only inside the `try`. With a
previous request's metrics in place, an `AuthenticationError` at stream
establishment leaves those old metrics in the slot; nothing records the
absent/zero case. -/
theorem error_metrics_claim_counterexample :
    (handlePrompt none "m" "" "hello"
        ⟨[], some ⟨some 1, 5, 10, 2⟩⟩ TokSlot.uninit 0
        (.apiError [] "auth failed")).sess.metrics = some ⟨some 1, 5, 10, 2⟩ ∧
    some (⟨some 1, 5, 10, 2⟩ : SessionMetrics) ≠ some absentZeroMetrics := by
  refine ⟨rfl, by decide⟩

/-- C1, amended: on a classified API error at establishment or during
iteration, the process-wide last-response metrics are *not updated*: they
retain whatever value they had before the request; the absent/zero record
is written only on the no-content success path. -/
theorem error_metrics_unchanged (init : InitOutcome)
    (model system_message prompt : String) (sess : Session) (slot : TokSlot)
    (request_start : ℚ) (before : List Chunk) (desc : String)
    (hm : pyStrip model ≠ "") :
    (handlePrompt init model system_message prompt sess slot request_start
      (.apiError before desc)).sess.metrics = sess.metrics := by
  simp [handlePrompt, hm]

/-- Witness for the amended C1 at a concrete input. -/
theorem error_metrics_unchanged_witness :
    (pyStrip "m" ≠ "") ∧
    (handlePrompt none "m" "" "hello"
        ⟨[], some ⟨some 1, 5, 10, 2⟩⟩ TokSlot.uninit 0
        (.apiError [] "auth failed")).sess.metrics =
      (⟨[], some ⟨some 1, 5, 10, 2⟩⟩ : Session).metrics :=
  ⟨by decide,
   error_metrics_unchanged none "m" "" "hello"
     ⟨[], some ⟨some 1, 5, 10, 2⟩⟩ TokSlot.uninit 0 [] "auth failed" (by decide)⟩

/-- C8: on any classified API error, the finalized text is the fixed
error marker `"❌ Error: "` followed by the error description, and it is
appended to the conversation store as the assistant message — failures
stay visible in the transcript. -/
theorem error_text_in_transcript (init : InitOutcome)
    (model system_message prompt : String) (sess : Session) (slot : TokSlot)
    (request_start : ℚ) (before : List Chunk) (desc : String)
    (hm : pyStrip model ≠ "") :
    (handlePrompt init model system_message prompt sess slot request_start
      (.apiError before desc)).sess.messages =
      (sess.messages ++ [⟨Role.user, prompt⟩]) ++
        [⟨Role.assistant, "❌ Error: " ++ desc⟩] := by
  simp [handlePrompt, hm]

/-- Witness for C8 at a concrete input. -/
theorem error_text_in_transcript_witness :
    (pyStrip "m" ≠ "") ∧
    (handlePrompt none "m" "" "hello"
        ⟨[], none⟩ TokSlot.uninit 0 (.apiError [] "boom")).sess.messages =
      (([] : List Message) ++ [⟨Role.user, "hello"⟩]) ++
        [⟨Role.assistant, "❌ Error: " ++ "boom"⟩] :=
  ⟨by decide,
   error_text_in_transcript none "m" "" "hello" ⟨[], none⟩ TokSlot.uninit 0
     [] "boom" (by decide)⟩

/-- C9: a stream exhausted without any present content delta and without
error leaves `first_token_time` absent, finalizes the empty string (which
is appended as the assistant message), and records the absent/zero
metrics. -/
theorem empty_stream_absent_zero (init : InitOutcome)
    (model system_message prompt : String) (sess : Session) (slot : TokSlot)
    (request_start : ℚ) (chunks : List Chunk) (end_time : ℚ)
    (hm : pyStrip model ≠ "") (hc : ∀ c ∈ chunks, c.delta = none) :
    (runStream init slot chunks).first_token_time = none ∧
    (runStream init slot chunks).full_response = "" ∧
    (handlePrompt init model system_message prompt sess slot request_start
      (.ok chunks end_time)).sess.metrics = some absentZeroMetrics ∧
    (handlePrompt init model system_message prompt sess slot request_start
      (.ok chunks end_time)).sess.messages =
      (sess.messages ++ [⟨Role.user, prompt⟩]) ++ [⟨Role.assistant, ""⟩] := by
  have hrun : runStream init slot chunks = initLoopState slot :=
    foldl_all_delta_none init chunks (initLoopState slot) hc
  refine ⟨by rw [hrun]; rfl, by rw [hrun]; rfl, ?_, ?_⟩
  · simp only [handlePrompt, if_neg hm, hrun]
    rfl
  · simp only [handlePrompt, if_neg hm, hrun]
    rfl

/-- Witness for C9 at a concrete input: two pure control frames, then
exhaustion. -/
theorem empty_stream_absent_zero_witness :
    ((pyStrip "m" ≠ "") ∧
     (∀ c ∈ ([⟨none, 1⟩, ⟨none, 2⟩] : List Chunk), c.delta = none)) ∧
    ((runStream none TokSlot.uninit [⟨none, 1⟩, ⟨none, 2⟩]).first_token_time = none ∧
     (runStream none TokSlot.uninit [⟨none, 1⟩, ⟨none, 2⟩]).full_response = "" ∧
     (handlePrompt none "m" "" "hello" ⟨[], none⟩ TokSlot.uninit 0
       (.ok [⟨none, 1⟩, ⟨none, 2⟩] 3)).sess.metrics = some absentZeroMetrics ∧
     (handlePrompt none "m" "" "hello" ⟨[], none⟩ TokSlot.uninit 0
       (.ok [⟨none, 1⟩, ⟨none, 2⟩] 3)).sess.messages =
       (([] : List Message) ++ [⟨Role.user, "hello"⟩]) ++ [⟨Role.assistant, ""⟩]) :=
  have hc : ∀ c ∈ ([⟨none, 1⟩, ⟨none, 2⟩] : List Chunk), c.delta = none := by
    intro c hcm
    rcases List.mem_cons.mp hcm with h | h
    · rw [h]
    · rcases List.mem_cons.mp h with h2 | h2
      · rw [h2]
      · exact absurd h2 (List.not_mem_nil c)
  ⟨⟨by decide, hc⟩,
   empty_stream_absent_zero none "m" "" "hello" ⟨[], none⟩ TokSlot.uninit 0
     [⟨none, 1⟩, ⟨none, 2⟩] 3 (by decide) hc⟩

/-- C7: when a request is issued, the payload handed to the API client is
the stored messages (the freshly appended user message included) in
stored order, preceded by a system message exactly when the system prompt
is non-empty after trimming. -/
theorem request_payload_spec (init : InitOutcome)
    (model system_message prompt : String) (sess : Session) (slot : TokSlot)
    (request_start : ℚ) (outcome : StreamOutcome)
    (hm : pyStrip model ≠ "") :
    (pyStrip system_message = "" →
      (handlePrompt init model system_message prompt sess slot request_start
        outcome).payload = some (sess.messages ++ [⟨Role.user, prompt⟩])) ∧
    (pyStrip system_message ≠ "" →
      (handlePrompt init model system_message prompt sess slot request_start
        outcome).payload =
        some (⟨Role.system, system_message⟩ ::
          (sess.messages ++ [⟨Role.user, prompt⟩]))) := by
  constructor
  · intro hs
    cases outcome <;> simp [handlePrompt, hm, apiMessages, hs]
  · intro hs
    cases outcome <;> simp [handlePrompt, hm, apiMessages, hs]

/-- Witness for C7 at a concrete input: non-blank model, system prompt
`" sys "` (non-empty after trimming), one stored message. -/
theorem request_payload_spec_witness :
    (pyStrip "m" ≠ "") ∧
    ((pyStrip " sys " = "" →
      (handlePrompt none "m" " sys " "hi" ⟨[⟨Role.user, "old"⟩], none⟩
        TokSlot.uninit 0 (.ok [] 1)).payload =
        some ([⟨Role.user, "old"⟩] ++ [⟨Role.user, "hi"⟩])) ∧
     (pyStrip " sys " ≠ "" →
      (handlePrompt none "m" " sys " "hi" ⟨[⟨Role.user, "old"⟩], none⟩
        TokSlot.uninit 0 (.ok [] 1)).payload =
        some (⟨Role.system, " sys "⟩ ::
          ([⟨Role.user, "old"⟩] ++ [⟨Role.user, "hi"⟩])))) :=
  ⟨by decide,
   request_payload_spec none "m" " sys " "hi" ⟨[⟨Role.user, "old"⟩], none⟩
     TokSlot.uninit 0 (.ok [] 1) (by decide)⟩

/-- C10: submitting a prompt while the model name is blank appends the
user message first, then stops before contacting the API client
(no payload is handed out): the transcript grows by exactly the one user
message with no assistant reply, and the metrics slot and tokenizer slot
are untouched. -/
theorem blank_model_short_circuit (init : InitOutcome)
    (model system_message prompt : String) (sess : Session) (slot : TokSlot)
    (request_start : ℚ) (outcome : StreamOutcome)
    (hm : pyStrip model = "") :
    (handlePrompt init model system_message prompt sess slot request_start
      outcome).sess.messages = sess.messages ++ [⟨Role.user, prompt⟩] ∧
    (handlePrompt init model system_message prompt sess slot request_start
      outcome).sess.metrics = sess.metrics ∧
    (handlePrompt init model system_message prompt sess slot request_start
      outcome).slot = slot ∧
    (handlePrompt init model system_message prompt sess slot request_start
      outcome).payload = none := by
  refine ⟨?_, ?_, ?_, ?_⟩ <;> simp [handlePrompt, hm]

/-- Witness for C10 at a concrete input: whitespace-only model name. -/
theorem blank_model_short_circuit_witness :
    (pyStrip "  " = "") ∧
    ((handlePrompt none "  " "sys" "hi" ⟨[⟨Role.user, "old"⟩], none⟩
        TokSlot.uninit 0 (.ok [] 1)).sess.messages =
      [⟨Role.user, "old"⟩] ++ [⟨Role.user, "hi"⟩] ∧
     (handlePrompt none "  " "sys" "hi" ⟨[⟨Role.user, "old"⟩], none⟩
        TokSlot.uninit 0 (.ok [] 1)).sess.metrics =
      (⟨[⟨Role.user, "old"⟩], none⟩ : Session).metrics ∧
     (handlePrompt none "  " "sys" "hi" ⟨[⟨Role.user, "old"⟩], none⟩
        TokSlot.uninit 0 (.ok [] 1)).slot = TokSlot.uninit ∧
     (handlePrompt none "  " "sys" "hi" ⟨[⟨Role.user, "old"⟩], none⟩
        TokSlot.uninit 0 (.ok [] 1)).payload = none) :=
  ⟨by decide,
   blank_model_short_circuit none "  " "sys" "hi" ⟨[⟨Role.user, "old"⟩], none⟩
     TokSlot.uninit 0 (.ok [] 1) (by decide)⟩

/-- Witness for C6 at a concrete input: no tiktoken available, an encoder
that always fails, text `"x"`. -/
theorem estimate_tokens_lazy_init_witness :
    ("x" ≠ "") ∧
    ((estimate_tokens none TokSlot.uninit none).2 = TokSlot.uninit ∧
     (estimate_tokens none TokSlot.uninit (some "")).2 = TokSlot.uninit ∧
     ((none : InitOutcome) = none →
       (estimate_tokens none TokSlot.uninit (some "x")).2 = TokSlot.sentinel) ∧
     (∀ e0, (none : InitOutcome) = some e0 →
       (estimate_tokens none TokSlot.uninit (some "x")).2 = TokSlot.ready e0) ∧
     (∀ init2, estimate_tokens none TokSlot.sentinel (some "x") =
       estimate_tokens init2 TokSlot.sentinel (some "x")) ∧
     (estimate_tokens none TokSlot.sentinel (some "x")).2 = TokSlot.sentinel ∧
     ((fun _ => (none : Option (List Nat))) "x" = none →
       estimate_tokens none (TokSlot.ready (fun _ => none)) (some "x") =
         (fallbackEstimate "x", TokSlot.ready (fun _ => none)))) :=
  ⟨by decide,
   estimate_tokens_lazy_init none (fun _ => none) "x" (by decide)⟩
